import Mathlib

/-
Verification development for the account servlets of
`synapse/rest/client/v2_alpha/account.py`.

The servlet handlers are shallowly embedded as pure Lean functions.  External
collaborators (the datastore, the identity verifier, bearer-token
authentication, the interactive-auth engine `check_auth`) are represented
either as explicit inputs or, where a claim needs their behaviour and their
code is not part of this source tree, as definitions modelled from the spec
(marked as such in their doc comments).  Each handler returns its HTTP
outcome together with a trace of the outbound calls it performed, so that
"X was never invoked" properties are directly expressible.
-/

namespace SynapseAccount

/-- UIA stage types (`synapse.api.constants.LoginType`) used by these
servlets. -/
inductive LoginType where
  | password
  | email_identity
  | msisdn
deriving Repr, DecidableEq, BEq

/-- The threepid datastore, modelled as an association list from
(medium, address) keys to the owning user id.  This mirrors the
`get_user_id_by_threepid` interface the servlets use. -/
abbrev Store := List ((String × String) × String)

/-- `datastore.get_user_id_by_threepid(medium, address)`: the owner of the
(medium, address) association, if any. -/
def get_user_id_by_threepid (store : Store) (medium address : String) :
    Option String :=
  (store.find? (fun p => p.1.1 == medium && p.1.2 == address)).map (fun p => p.2)

/-- A threepid dict as produced by a UIA identity stage or by
`threepid_from_creds`: a partial record whose fields may be absent
(Python dict key membership becomes `Option`). -/
structure ThreepidDict where
  medium : Option String := none
  address : Option String := none
  validated_at : Option Nat := none
deriving Repr, DecidableEq

/-- The `result` dict returned by `check_auth`: completed stage types mapped
to their verified payloads.  `LoginType.PASSWORD` maps to the verified user
id; the identity stages map to a verified threepid dict.  An absent field
models the stage type not being a key of the dict. -/
structure AuthResult where
  password : Option String := none
  email_identity : Option ThreepidDict := none
  msisdn : Option ThreepidDict := none
deriving Repr, DecidableEq

/-- The session payload `check_auth` hands back for a 401 response: the
acceptable flows plus the stages completed so far, so the client can retry
the remaining stages. -/
structure UiaChallenge where
  flows : List (List LoginType)
  completed : List LoginType
deriving Repr, DecidableEq

/-- The quadruple returned by `auth_handler.check_auth` (the UIA engine),
as consumed by these servlets: the authed flag, the completed-stage results,
the accumulated non-auth params of the request, and the session payload
returned to the client when not yet authenticated. -/
structure CheckAuthOut where
  authed : Bool
  result : AuthResult
  params : List (String × String)
  challenge : UiaChallenge
deriving Repr, DecidableEq

/-- Machine-readable error codes (`synapse.api.errors.Codes`) used by this
file. -/
inductive ErrCode where
  | unknown
  | missing_param
  | missing_token
  | not_found
  | threepid_not_found
  | threepid_in_use
  | threepid_auth_failed
deriving Repr, DecidableEq

/-- A raised `SynapseError`/`LoginError`: HTTP status, human-readable
message, machine-readable code. -/
structure SynErr where
  status : Nat
  msg : String
  code : ErrCode
deriving Repr, DecidableEq

/-- Successful response bodies of these servlets: the empty object, a UIA
session payload (401 continuation), or the opaque response of the identity
verifier's token issuance. -/
inductive RespBody where
  | empty
  | session (c : UiaChallenge)
  | tokenIssued
deriving Repr, DecidableEq

/-- The observable HTTP outcome of a handler: a (status, body) response or a
raised error. -/
inductive Outcome where
  | resp (status : Nat) (body : RespBody)
  | err (e : SynErr)
deriving Repr, DecidableEq

/-- Trace of outbound calls a handler performs, in order. -/
inductive Event where
  | checkAuth (flows : List (List LoginType))
  | bearerAuth
  | lookupOwner (medium address : String)
  | setPassword (user newPassword : String)
  | deactivate (user : String)
  | exchangeCreds (creds : String)
  | addThreepidCall (user medium address : String) (validated_at : Nat)
  | bindThreepid (creds user : String)
  | issueToken (medium address : String)
deriving Repr, DecidableEq

/-- Modelled from the spec: bearer authentication (`auth.get_user_by_req`)
is an external collaborator not in this source tree; when no valid access
token accompanies the request it raises an authentication error instead of
returning a requester. -/
def missingAccessTokenError : SynErr :=
  { status := 401, msg := "Missing access token", code := .missing_token }

/-- ASCII lower-casing of a character list, written with structural
recursion so that it evaluates inside the kernel (Python's `str.lower` on
the ASCII addresses these servlets handle). -/
def lowerChars : List Char → List Char
  | [] => []
  | c :: cs => c.toLower :: lowerChars cs

/-- `address.lower()`: ASCII lower-casing of a string. -/
def strToLower (s : String) : String := ⟨lowerChars s.data⟩

/-- Email addresses are stored lower-cased, so an email address is
lower-cased before it is used as a store key (account.py lines 130-134 and
`add_threepid` in synapse/handlers/auth.py); other media are used as-is. -/
def normalizeEmailCase (medium address : String) : String :=
  if medium == "email" then strToLower address else address

/-- The stage alternatives `PasswordRestServlet.on_POST` passes to
`check_auth` (account.py lines 108-112). -/
def passwordStageAlternatives : List (List LoginType) :=
  [[.password], [.email_identity], [.msisdn]]

/-- The final step of `PasswordRestServlet.on_POST` (lines 146-154): read
`new_password` from the accumulated params (400 `M_MISSING_PARAM` when
absent) and delegate to `auth_handler.set_password`. -/
def set_password_step (params : List (String × String)) (user_id : String)
    (tr : List Event) : Outcome × List Event :=
  match params.lookup "new_password" with
  | none => (.err { status := 400, msg := "", code := .missing_param }, tr)
  | some new_password => (.resp 200 .empty, tr ++ [.setPassword user_id new_password])

/-- `PasswordRestServlet.on_POST` (account.py lines 102-154).  `ca` is the
output of the `check_auth` call for this request; `bearer` is the user id
resolved by bearer-token authentication, when a valid token is present.
The password branch compares the bearer user to the password-stage user
(`LoginError(400, "", Codes.UNKNOWN)` on mismatch); the email-identity
branch lower-cases email addresses and resolves the owner through the
store (404 `M_NOT_FOUND` when absent — the `if not threepid_user_id` check
also treats an empty-string owner as absent); any other completed stage
falls through to `SynapseError(500, "", Codes.UNKNOWN)` behind the
"Auth succeeded but no known type!" log line. -/
def passwordOnPost (store : Store) (ca : CheckAuthOut) (bearer : Option String) :
    Outcome × List Event :=
  let tr : List Event := [.checkAuth passwordStageAlternatives]
  if !ca.authed then
    (.resp 401 (.session ca.challenge), tr)
  else
    match ca.result.password with
    | some stage_user =>
      match bearer with
      | none => (.err missingAccessTokenError, tr)
      | some user_id =>
        if user_id != stage_user then
          (.err { status := 400, msg := "", code := .unknown }, tr)
        else
          set_password_step ca.params user_id tr
    | none =>
      match ca.result.email_identity with
      | some threepid =>
        if threepid.medium.isNone || threepid.address.isNone then
          (.err { status := 500, msg := "Malformed threepid", code := .unknown }, tr)
        else
          let medium := threepid.medium.getD ""
          let address := normalizeEmailCase medium (threepid.address.getD "")
          let tr := tr ++ [.lookupOwner medium address]
          match get_user_id_by_threepid store medium address with
          | none =>
            (.err { status := 404, msg := "Email address not found", code := .not_found }, tr)
          | some threepid_user_id =>
            if threepid_user_id == "" then
              (.err { status := 404, msg := "Email address not found", code := .not_found }, tr)
            else
              set_password_step ca.params threepid_user_id tr
      | none =>
        (.err { status := 500, msg := "", code := .unknown }, tr)

/-- C1: the claim says that whenever the winning UIA alternative of a
changePassword call is an email or msisdn identity stage, the target user is
resolved through a ThreepidStore lookup on the verified (medium, address) —
404 `AddressNotFound` when no owner exists — and that this applies to the
msisdn stage too.  Evaluating the handler on a UIA result whose only
completed stage is msisdn (with a verified msisdn that the store does own)
shows the code instead raises `SynapseError(500, "", Codes.UNKNOWN)` from
the "Auth succeeded but no known type!" branch and performs no store
lookup: the msisdn flow the servlet itself offers in
`passwordStageAlternatives` is unhandled. -/
theorem accountC1_msisdn_branch_eval :
    passwordOnPost [(("msisdn", "447700900001"), "@bob:example.com")]
      { authed := true,
        result := { msisdn := some { medium := some "msisdn",
                                     address := some "447700900001",
                                     validated_at := some 0 } },
        params := [("new_password", "hunter2")],
        challenge := { flows := passwordStageAlternatives, completed := [.msisdn] } }
      none =
      (.err { status := 500, msg := "", code := .unknown },
       [.checkAuth passwordStageAlternatives]) ∧
    get_user_id_by_threepid [(("msisdn", "447700900001"), "@bob:example.com")]
      "msisdn" "447700900001" = some "@bob:example.com" :=
  ⟨rfl, rfl⟩

/-- C3: in a changePassword call whose winning UIA alternative is the
password stage, a bearer-authenticated requester whose user id differs from
the password-stage-verified user id makes the call fail with the
identity-mismatch error — the code's `LoginError(400, "", Codes.UNKNOWN)`
at account.py line 125 — and `set_password` is never invoked, so the stored
credential is not mutated. -/
theorem accountC3_identity_mismatch (store : Store) (ca : CheckAuthOut)
    (u stage_user : String)
    (hauth : ca.authed = true) (hpw : ca.result.password = some stage_user)
    (hne : u ≠ stage_user) :
    passwordOnPost store ca (some u) =
      (.err { status := 400, msg := "", code := .unknown },
       [.checkAuth passwordStageAlternatives]) ∧
    ∀ w p, Event.setPassword w p ∉ (passwordOnPost store ca (some u)).2 := by
  have hmain : passwordOnPost store ca (some u) =
      (.err { status := 400, msg := "", code := .unknown },
       [.checkAuth passwordStageAlternatives]) := by
    unfold passwordOnPost
    rw [hauth, hpw]
    simp [bne_iff_ne, hne]
  refine ⟨hmain, ?_⟩
  intro w p
  rw [hmain]
  simp

/-- Witness for C3: a concrete mismatching pair of bearer user and
password-stage user. -/
theorem accountC3_identity_mismatch_witness :
    passwordOnPost []
      { authed := true, result := { password := some "@bob:hs" },
        params := [("new_password", "pw")],
        challenge := { flows := passwordStageAlternatives, completed := [.password] } }
      (some "@alice:hs") =
      (.err { status := 400, msg := "", code := .unknown },
       [.checkAuth passwordStageAlternatives]) :=
  (accountC3_identity_mismatch []
    { authed := true, result := { password := some "@bob:hs" },
      params := [("new_password", "pw")],
      challenge := { flows := passwordStageAlternatives, completed := [.password] } }
    "@alice:hs" "@bob:hs" rfl rfl (by decide)).1

/-- C10: when the accumulated UIA params of a changePassword call contain
no `new_password` entry, `set_password` is never invoked (on any execution
path at all), and every call that passed UIA and resolved an identity —
whether through the password stage with a matching bearer user, or through
the email-identity stage with a store-resolvable threepid — fails with
400 `M_MISSING_PARAM`. -/
theorem accountC10_missing_new_password (store : Store) (ca : CheckAuthOut)
    (bearer : Option String)
    (hnp : ca.params.lookup "new_password" = none) :
    (∀ w p, Event.setPassword w p ∉ (passwordOnPost store ca bearer).2) ∧
    (∀ u, ca.authed = true → ca.result.password = some u → bearer = some u →
      (passwordOnPost store ca bearer).1 =
        .err { status := 400, msg := "", code := .missing_param }) ∧
    (∀ t m a uid, ca.authed = true → ca.result.password = none →
      ca.result.email_identity = some t →
      t.medium = some m → t.address = some a →
      get_user_id_by_threepid store m (normalizeEmailCase m a) = some uid →
      uid ≠ "" →
      (passwordOnPost store ca bearer).1 =
        .err { status := 400, msg := "", code := .missing_param }) := by
  have hsps : ∀ user tr, set_password_step ca.params user tr =
      (.err { status := 400, msg := "", code := .missing_param }, tr) := by
    intro user tr
    unfold set_password_step
    rw [hnp]
  refine ⟨?_, ?_, ?_⟩
  · intro w p
    unfold passwordOnPost
    dsimp only
    split
    · simp
    · split
      · split
        · simp
        · split
          · simp
          · rw [hsps]
            simp
      · split
        · split
          · simp
          · split
            · simp
            · split
              · simp
              · rw [hsps]
                simp
        · simp
  · intro u ha hp hb
    subst hb
    unfold passwordOnPost
    rw [ha, hp]
    simp [hsps]
  · intro t m a uid ha hp he hm haddr hlook hne
    unfold passwordOnPost
    rw [ha, hp, he]
    simp [hm, haddr, hlook, hne, hsps]

/-- Witness for C10: a concrete authed password-stage call with matching
bearer user and no `new_password` param fails with 400 `M_MISSING_PARAM`. -/
theorem accountC10_missing_new_password_witness :
    (passwordOnPost []
      { authed := true, result := { password := some "@alice:hs" }, params := [],
        challenge := { flows := passwordStageAlternatives, completed := [.password] } }
      (some "@alice:hs")).1 =
      .err { status := 400, msg := "", code := .missing_param } :=
  (accountC10_missing_new_password []
    { authed := true, result := { password := some "@alice:hs" }, params := [],
      challenge := { flows := passwordStageAlternatives, completed := [.password] } }
    (some "@alice:hs") rfl).2.1 "@alice:hs" rfl rfl rfl

/-- Request bodies of the email requestToken servlets; an absent field
models a missing key. -/
structure EmailTokenBody where
  id_server : Option String := none
  client_secret : Option String := none
  email : Option String := none
  send_attempt : Option Nat := none
deriving Repr, DecidableEq

/-- Whether any of the four required parameters of the email requestToken
bodies is missing (`assert_params_in_request` / the manual `absent` loop,
both of which raise 400 `M_MISSING_PARAM`). -/
def emailTokenParamsMissing (body : EmailTokenBody) : Bool :=
  body.id_server.isNone || body.client_secret.isNone ||
    body.email.isNone || body.send_attempt.isNone

/-- `EmailPasswordRequestTokenRestServlet.on_POST` (account.py lines 42-58):
after the required-parameter check, look up the owner of
('email', body['email']) — the raw address, as written — and raise
400 `M_THREEPID_NOT_FOUND` ("Email not found") when there is none;
otherwise delegate token issuance to the identity handler. -/
def emailPasswordRequestTokenOnPost (store : Store) (body : EmailTokenBody) :
    Outcome × List Event :=
  if emailTokenParamsMissing body then
    (.err { status := 400, msg := "Missing params", code := .missing_param }, [])
  else
    let email := body.email.getD ""
    let tr : List Event := [.lookupOwner "email" email]
    match get_user_id_by_threepid store "email" email with
    | none =>
      (.err { status := 400, msg := "Email not found", code := .threepid_not_found }, tr)
    | some _ =>
      (.resp 200 .tokenIssued, tr ++ [.issueToken "email" email])

/-- `EmailThreepidRequestTokenRestServlet.on_POST` (account.py lines
222-243): after the required-parameter check, look up the owner of
('email', body['email']) — again the raw address — and raise 400
`M_THREEPID_IN_USE` ("Email is already in use") when an owner exists;
otherwise delegate token issuance to the identity handler. -/
def emailThreepidRequestTokenOnPost (store : Store) (body : EmailTokenBody) :
    Outcome × List Event :=
  if emailTokenParamsMissing body then
    (.err { status := 400, msg := "Missing params", code := .missing_param }, [])
  else
    let email := body.email.getD ""
    let tr : List Event := [.lookupOwner "email" email]
    match get_user_id_by_threepid store "email" email with
    | some _ =>
      (.err { status := 400, msg := "Email is already in use", code := .threepid_in_use }, tr)
    | none =>
      (.resp 200 .tokenIssued, tr ++ [.issueToken "email" email])

/-- C2: the claim says the raw email address is lower-cased before the
ownership lookup that drives the RequestTokenGuard, so that an add-3pid
request for "USER@Example.com" fails with `AddressAlreadyInUse` when
"user@example.com" is already owned.  Evaluating the servlet shows
otherwise: the lookup uses the raw address, misses the lower-cased key the
store holds (email addresses are stored lower-cased, per the code's own
comment at account.py lines 131-133), and the token is issued with 200.
The second conjunct records that the lower-cased form of the requested
address is owned, so the guard would have fired had the code normalized as
the claim states. -/
theorem accountC2_case_sensitive_guard_eval :
    emailThreepidRequestTokenOnPost
      [(("email", "user@example.com"), "@alice:example.com")]
      { id_server := some "id.example.com", client_secret := some "sekrit",
        email := some "USER@Example.com", send_attempt := some 1 } =
      (.resp 200 .tokenIssued,
       [.lookupOwner "email" "USER@Example.com",
        .issueToken "email" "USER@Example.com"]) ∧
    get_user_id_by_threepid [(("email", "user@example.com"), "@alice:example.com")]
      "email" (strToLower "USER@Example.com") = some "@alice:example.com" :=
  ⟨rfl, rfl⟩

/-- C4: for one and the same (medium, address) — here the email of one and
the same request body — against one and the same store state, the
password-reset requestToken succeeds only if an owner of the address
exists, and otherwise (a well-formed request whose address has no owner)
fails with the address-not-found error (400 `M_THREEPID_NOT_FOUND`); the
add-3pid requestToken succeeds only if no owner exists, and otherwise
fails with the address-already-in-use error (400 `M_THREEPID_IN_USE`);
hence the two can never both succeed. -/
theorem accountC4_guard_mutual_exclusivity (store : Store) (body : EmailTokenBody) :
    ((emailPasswordRequestTokenOnPost store body).1 = .resp 200 .tokenIssued →
      (get_user_id_by_threepid store "email" (body.email.getD "")).isSome) ∧
    ((emailThreepidRequestTokenOnPost store body).1 = .resp 200 .tokenIssued →
      (get_user_id_by_threepid store "email" (body.email.getD "")).isNone) ∧
    ¬((emailPasswordRequestTokenOnPost store body).1 = .resp 200 .tokenIssued ∧
      (emailThreepidRequestTokenOnPost store body).1 = .resp 200 .tokenIssued) ∧
    (emailTokenParamsMissing body = false →
      get_user_id_by_threepid store "email" (body.email.getD "") = none →
      (emailPasswordRequestTokenOnPost store body).1 =
        .err { status := 400, msg := "Email not found", code := .threepid_not_found }) ∧
    (∀ w, emailTokenParamsMissing body = false →
      get_user_id_by_threepid store "email" (body.email.getD "") = some w →
      (emailThreepidRequestTokenOnPost store body).1 =
        .err { status := 400, msg := "Email is already in use", code := .threepid_in_use }) := by
  have hpw : (emailPasswordRequestTokenOnPost store body).1 = .resp 200 .tokenIssued →
      (get_user_id_by_threepid store "email" (body.email.getD "")).isSome := by
    intro h
    unfold emailPasswordRequestTokenOnPost at h
    split at h
    · exact absurd h (by simp)
    · dsimp only at h
      split at h
      · exact absurd h (by simp)
      · next heq => simp [heq]
  have hadd : (emailThreepidRequestTokenOnPost store body).1 = .resp 200 .tokenIssued →
      (get_user_id_by_threepid store "email" (body.email.getD "")).isNone := by
    intro h
    unfold emailThreepidRequestTokenOnPost at h
    split at h
    · exact absurd h (by simp)
    · dsimp only at h
      split at h
      · exact absurd h (by simp)
      · next heq => simp [heq]
  have hboth : ¬((emailPasswordRequestTokenOnPost store body).1 = .resp 200 .tokenIssued ∧
      (emailThreepidRequestTokenOnPost store body).1 = .resp 200 .tokenIssued) := by
    rintro ⟨h1, h2⟩
    have hs := hpw h1
    have hn := hadd h2
    rw [Option.isNone_iff_eq_none] at hn
    rw [hn] at hs
    simp at hs
  refine ⟨hpw, hadd, hboth, ?_, ?_⟩
  · intro hparams hnone
    simp [emailPasswordRequestTokenOnPost, hparams, hnone]
  · intro w hparams hsome
    simp [emailThreepidRequestTokenOnPost, hparams, hsome]

/-- Witness for C4 at a concrete store and body: the password-reset guard
succeeds, so the owner lookup is non-empty, and on the same owned address
the add-3pid guard fails with 400 `M_THREEPID_IN_USE`. -/
theorem accountC4_guard_mutual_exclusivity_witness :
    (emailPasswordRequestTokenOnPost [(("email", "a@b.c"), "@u:hs")]
        { id_server := some "id.example.com", client_secret := some "s",
          email := some "a@b.c", send_attempt := some 1 }).1 = .resp 200 .tokenIssued ∧
    (get_user_id_by_threepid [(("email", "a@b.c"), "@u:hs")] "email"
        ((some "a@b.c" : Option String).getD "")).isSome ∧
    (emailThreepidRequestTokenOnPost [(("email", "a@b.c"), "@u:hs")]
        { id_server := some "id.example.com", client_secret := some "s",
          email := some "a@b.c", send_attempt := some 1 }).1 =
      .err { status := 400, msg := "Email is already in use", code := .threepid_in_use } :=
  ⟨rfl,
   (accountC4_guard_mutual_exclusivity [(("email", "a@b.c"), "@u:hs")]
      { id_server := some "id.example.com", client_secret := some "s",
        email := some "a@b.c", send_attempt := some 1 }).1 rfl,
   (accountC4_guard_mutual_exclusivity [(("email", "a@b.c"), "@u:hs")]
      { id_server := some "id.example.com", client_secret := some "s",
        email := some "a@b.c", send_attempt := some 1 }).2.2.2.2 "@u:hs" rfl rfl⟩

/-- The bearer-authenticated requester (`synapse.types.Requester` as used
here): the resolved user id and whether the request was made by an
application service. -/
structure Requester where
  user : String
  app_service : Bool
deriving Repr, DecidableEq

/-- The stage alternatives `DeactivateAccountRestServlet.on_POST` passes to
`check_auth` (account.py lines 187-189): the password-only stage set. -/
def deactivateStageAlternatives : List (List LoginType) := [[.password]]

/-- Whether an alternative stage set is fully covered by the completed
stages (the UIA engine's authentication criterion, spec section 4.1). -/
def stageSetSatisfied (completed : List LoginType) (alt : List LoginType) : Bool :=
  alt.all (fun stage => completed.contains stage)

/-- Modelled from the spec: the UIA engine `auth_handler.check_auth` lives
in synapse/handlers/auth.py, which is not part of this source tree.  Per
spec section 4.1 the engine attempts only the stages present in the client
auth payload, so a request body carrying no auth block completes no stage;
the request is authenticated iff some alternative's full stage set is a
subset of the completed stages; when not authenticated, the session
payload (the flows plus the stages completed so far) is handed back for
the 401 response.  This definition is that behaviour specialised to a
request with no auth block. -/
def checkAuthNoAuthBlock (flows : List (List LoginType)) : CheckAuthOut :=
  let completed : List LoginType := []
  { authed := flows.any (stageSetSatisfied completed)
  , result := {}
  , params := []
  , challenge := { flows := flows, completed := completed } }

/-- The UIA portion of `DeactivateAccountRestServlet.on_POST` (account.py
lines 187-210), reached when the app-service shortcut did not apply: on
incomplete UIA return the 401 continuation; on success require the
password stage, a present requester (400 `M_MISSING_TOKEN` otherwise), and
the requester's user to equal the password-stage user (`LoginError(400,
"", Codes.UNKNOWN)` otherwise) before deactivating; any other completed
stage is the 500 "no known type" branch. -/
def deactivateUiaStep (requester : Option Requester) (ca : CheckAuthOut) :
    Outcome × List Event :=
  let tr : List Event := [.checkAuth deactivateStageAlternatives]
  if !ca.authed then
    (.resp 401 (.session ca.challenge), tr)
  else
    match ca.result.password with
    | some user_id =>
      match requester with
      | none =>
        (.err { status := 400, msg := "Deactivate account requires an access_token",
                code := .missing_token }, tr)
      | some r =>
        if r.user != user_id then
          (.err { status := 400, msg := "", code := .unknown }, tr)
        else
          (.resp 200 .empty, tr ++ [.deactivate user_id])
    | none =>
      (.err { status := 500, msg := "", code := .unknown }, tr)

/-- `DeactivateAccountRestServlet.on_POST` (account.py lines 169-210).
`requester` is the bearer identity when an access token was supplied and
valid; `ca` is the output of the `check_auth` call for this request.  An
app-service requester short-circuits: its user is deactivated at once,
with no UIA evaluation. -/
def deactivateOnPost (requester : Option Requester) (ca : CheckAuthOut) :
    Outcome × List Event :=
  match requester with
  | some r =>
    if r.app_service then
      (.resp 200 .empty, [.deactivate r.user])
    else
      deactivateUiaStep (some r) ca
  | none => deactivateUiaStep none ca

/-- C6: a deactivateAccount call whose bearer identity is an
application-service principal succeeds immediately — status 200, the
administered account (the user the service is acting as) deactivated —
whatever the UIA engine would have said: no `check_auth` call appears in
the trace. -/
theorem accountC6_app_service_deactivation (r : Requester) (ca : CheckAuthOut)
    (hAs : r.app_service = true) :
    deactivateOnPost (some r) ca = (.resp 200 .empty, [.deactivate r.user]) ∧
    ∀ fl, Event.checkAuth fl ∉ (deactivateOnPost (some r) ca).2 := by
  have hmain : deactivateOnPost (some r) ca = (.resp 200 .empty, [.deactivate r.user]) := by
    unfold deactivateOnPost
    dsimp only
    rw [hAs]
    simp
  refine ⟨hmain, ?_⟩
  intro fl
  rw [hmain]
  simp

/-- Witness for C6: a concrete app-service requester deactivating a managed
account with an arbitrary (here: empty) UIA engine output. -/
theorem accountC6_app_service_deactivation_witness :
    deactivateOnPost (some { user := "@managed:hs", app_service := true })
      { authed := false, result := {}, params := [],
        challenge := { flows := deactivateStageAlternatives, completed := [] } } =
      (.resp 200 .empty, [.deactivate "@managed:hs"]) :=
  (accountC6_app_service_deactivation { user := "@managed:hs", app_service := true }
    { authed := false, result := {}, params := [],
      challenge := { flows := deactivateStageAlternatives, completed := [] } }
    rfl).1

/-- C7: a non-service principal (no bearer identity, or a bearer identity
that is not an application service) calling deactivateAccount with no auth
block in the body has the UIA engine invoked with the password-only stage
set [[PASSWORD]] (the `checkAuth` trace event), receives status 401 with
the partial session state prompting for the password stage, and no account
is deactivated. -/
theorem accountC7_no_auth_block_challenge (requester : Option Requester)
    (hreq : requester = none ∨ ∃ r, requester = some r ∧ r.app_service = false) :
    deactivateOnPost requester (checkAuthNoAuthBlock deactivateStageAlternatives) =
      (.resp 401 (.session { flows := [[.password]], completed := [] }),
       [.checkAuth [[.password]]]) ∧
    ∀ w, Event.deactivate w ∉
      (deactivateOnPost requester (checkAuthNoAuthBlock deactivateStageAlternatives)).2 := by
  have hca : checkAuthNoAuthBlock deactivateStageAlternatives =
      { authed := false, result := {}, params := [],
        challenge := { flows := [[.password]], completed := [] } } := rfl
  have hmain : deactivateOnPost requester (checkAuthNoAuthBlock deactivateStageAlternatives) =
      (.resp 401 (.session { flows := [[.password]], completed := [] }),
       [.checkAuth [[.password]]]) := by
    rcases hreq with h | ⟨r, hr, hAs⟩
    · subst h
      rw [hca]
      rfl
    · subst hr
      rw [hca]
      unfold deactivateOnPost
      dsimp only
      rw [hAs]
      rfl
  refine ⟨hmain, ?_⟩
  intro w
  rw [hmain]
  simp

/-- Witness for C7: the concrete case of no bearer identity at all. -/
theorem accountC7_no_auth_block_challenge_witness :
    deactivateOnPost none (checkAuthNoAuthBlock deactivateStageAlternatives) =
      (.resp 401 (.session { flows := [[.password]], completed := [] }),
       [.checkAuth [[.password]]]) :=
  (accountC7_no_auth_block_challenge none (Or.inl rfl)).1

/-- Body of `POST /account/3pid`, with the two accepted credential keys
(the legacy `threePidCreds` and `three_pid_creds`) and the optional `bind`
flag; credentials are opaque to this handler and modelled as strings. -/
structure ThreepidBody where
  threePidCreds : Option String := none
  three_pid_creds : Option String := none
  bind : Option Bool := none
deriving Repr, DecidableEq

/-- The credential-extraction of `ThreepidRestServlet.on_POST` (account.py
lines 313-314): `body.get('threePidCreds')` overridden by
`body.get('three_pid_creds', ...)`, so `three_pid_creds` wins when both
keys are present. -/
def credsFromBody (body : ThreepidBody) : Option String :=
  match body.three_pid_creds with
  | some c => some c
  | none => body.threePidCreds

/-- Modelled from the spec: `auth_handler.add_threepid` lives in
synapse/handlers/auth.py, which is not part of this source tree.  Per spec
section 4.2 it normalizes the address (medium email implies lower-casing)
before persistence and inserts the association into the store, failing
with `AddressAlreadyInUse` when the insert would violate the
one-owner-per-(medium, address) invariant. -/
def add_threepid (store : Store) (user_id medium address : String)
    (validated_at : Nat) : Except SynErr Store :=
  let addr := normalizeEmailCase medium address
  match get_user_id_by_threepid store medium addr with
  | some _ =>
    .error { status := 400, msg := "Threepid already in use", code := .threepid_in_use }
  | none =>
    let _ := validated_at
    .ok (((medium, addr), user_id) :: store)

/-- `ThreepidRestServlet.on_POST` (account.py lines 307-349).  `bearer` is
the bearer-authenticated user when a valid access token is present;
`exchange` is `identity_handler.threepid_from_creds` (falsy result modelled
as `none`); `bindOutcome` is the outcome of the
`identity_handler.bind_threepid` call, should it be made.  Returns the HTTP
outcome, the final store, and the trace of outbound calls. -/
def threepidOnPost (store : Store) (body : ThreepidBody) (bearer : Option String)
    (exchange : String → Option ThreepidDict) (bindOutcome : Except SynErr Unit) :
    Outcome × Store × List Event :=
  match credsFromBody body with
  | none => (.err { status := 400, msg := "Missing param", code := .missing_param }, store, [])
  | some creds =>
    match bearer with
    | none => (.err missingAccessTokenError, store, [.bearerAuth])
    | some user_id =>
      let tr : List Event := [.bearerAuth, .exchangeCreds creds]
      match exchange creds with
      | none =>
        (.err { status := 400, msg := "Failed to auth 3pid", code := .threepid_auth_failed },
         store, tr)
      | some threepid =>
        if threepid.medium.isNone || threepid.address.isNone ||
            threepid.validated_at.isNone then
          (.err { status := 500, msg := "Invalid response from ID Server", code := .unknown },
           store, tr)
        else
          let medium := threepid.medium.getD ""
          let address := threepid.address.getD ""
          let validated_at := threepid.validated_at.getD 0
          let tr := tr ++ [.addThreepidCall user_id medium address validated_at]
          match add_threepid store user_id medium address validated_at with
          | .error e => (.err e, store, tr)
          | .ok store' =>
            if body.bind.getD false then
              let tr := tr ++ [.bindThreepid creds user_id]
              match bindOutcome with
              | .error e => (.err e, store', tr)
              | .ok _ => (.resp 200 .empty, store', tr)
            else
              (.resp 200 .empty, store', tr)

/-- C5, as stated, is false on the code: the claim says a failing
credential exchange (`CredentialAuthFailed`) is reported as a 500-class
fault, but evaluating the handler on a request whose exchange fails shows
`SynapseError(400, "Failed to auth 3pid", Codes.THREEPID_AUTH_FAILED)` — a
400 client-class status — with the store left unchanged. -/
theorem accountC5_auth_failure_is_400 :
    (threepidOnPost [] { three_pid_creds := some "creds1" } (some "@alice:hs")
        (fun _ => none) (.ok ())).1 =
      .err { status := 400, msg := "Failed to auth 3pid", code := .threepid_auth_failed } ∧
    (threepidOnPost [] { three_pid_creds := some "creds1" } (some "@alice:hs")
        (fun _ => none) (.ok ())).2.1 = ([] : Store) :=
  ⟨rfl, rfl⟩

/-- C5 (amended): the credential-exchange failure is reported as 400
`M_THREEPID_AUTH_FAILED` (a client-class status), while an exchanged triple
missing any of medium, address, validated_at is reported as 500; in either
case no association is inserted — the store is unchanged and no
`add_threepid` call appears in the trace. -/
theorem accountC5_amended_upstream_failures (store : Store) (body : ThreepidBody)
    (u creds : String) (exchange : String → Option ThreepidDict)
    (bindOutcome : Except SynErr Unit)
    (hc : credsFromBody body = some creds) :
    (exchange creds = none →
      (threepidOnPost store body (some u) exchange bindOutcome).1 =
        .err { status := 400, msg := "Failed to auth 3pid", code := .threepid_auth_failed } ∧
      (threepidOnPost store body (some u) exchange bindOutcome).2.1 = store ∧
      ∀ w m a v, Event.addThreepidCall w m a v ∉
        (threepidOnPost store body (some u) exchange bindOutcome).2.2) ∧
    (∀ t, exchange creds = some t →
      (t.medium.isNone || t.address.isNone || t.validated_at.isNone) = true →
      (threepidOnPost store body (some u) exchange bindOutcome).1 =
        .err { status := 500, msg := "Invalid response from ID Server", code := .unknown } ∧
      (threepidOnPost store body (some u) exchange bindOutcome).2.1 = store ∧
      ∀ w m a v, Event.addThreepidCall w m a v ∉
        (threepidOnPost store body (some u) exchange bindOutcome).2.2) := by
  constructor
  · intro hex
    have hrun : threepidOnPost store body (some u) exchange bindOutcome =
        (.err { status := 400, msg := "Failed to auth 3pid", code := .threepid_auth_failed },
         store, [.bearerAuth, .exchangeCreds creds]) := by
      unfold threepidOnPost
      rw [hc]
      dsimp only
      rw [hex]
    refine ⟨by rw [hrun], by rw [hrun], ?_⟩
    intro w m a v
    rw [hrun]
    simp
  · intro t hex hmal
    have hrun : threepidOnPost store body (some u) exchange bindOutcome =
        (.err { status := 500, msg := "Invalid response from ID Server", code := .unknown },
         store, [.bearerAuth, .exchangeCreds creds]) := by
      unfold threepidOnPost
      rw [hc]
      dsimp only
      rw [hex]
      dsimp only
      rw [hmal]
      rfl
    refine ⟨by rw [hrun], by rw [hrun], ?_⟩
    intro w m a v
    rw [hrun]
    simp

/-- Witness for C5 (amended), exchange-failure case, at concrete inputs. -/
theorem accountC5_amended_upstream_failures_witness :
    (threepidOnPost [] { threePidCreds := some "legacy" } (some "@alice:hs")
        (fun _ => none) (.ok ())).1 =
      .err { status := 400, msg := "Failed to auth 3pid", code := .threepid_auth_failed } ∧
    (threepidOnPost [] { threePidCreds := some "legacy" } (some "@alice:hs")
        (fun _ => none) (.ok ())).2.1 = ([] : Store) :=
  ⟨((accountC5_amended_upstream_failures [] { threePidCreds := some "legacy" }
      "@alice:hs" "legacy" (fun _ => none) (.ok ()) rfl).1 rfl).1,
   ((accountC5_amended_upstream_failures [] { threePidCreds := some "legacy" }
      "@alice:hs" "legacy" (fun _ => none) (.ok ()) rfl).1 rfl).2.1⟩

/-- C8: in addThreepid, the binding publication is attempted only after
the local association insert has succeeded — when the insert conflicts, no
`bind_threepid` call is made and the store is unchanged; when bind was not
requested (flag absent or false), no `bind_threepid` call is made on any
path; and when bind was requested and the insert succeeded, the trace
places the insert strictly before the publication, the inserted
association stays in the store, and a publish failure surfaces as the
response error without removing the association. -/
theorem accountC8_bind_after_insert (store : Store) (body : ThreepidBody)
    (u creds : String) (exchange : String → Option ThreepidDict)
    (bindOutcome : Except SynErr Unit) (t : ThreepidDict) (m a : String) (v : Nat)
    (hc : credsFromBody body = some creds)
    (hex : exchange creds = some t)
    (hm : t.medium = some m) (ha : t.address = some a) (hv : t.validated_at = some v) :
    (∀ w, get_user_id_by_threepid store m (normalizeEmailCase m a) = some w →
      (threepidOnPost store body (some u) exchange bindOutcome).2.1 = store ∧
      ∀ c' w', Event.bindThreepid c' w' ∉
        (threepidOnPost store body (some u) exchange bindOutcome).2.2) ∧
    (body.bind.getD false = false →
      ∀ c' w', Event.bindThreepid c' w' ∉
        (threepidOnPost store body (some u) exchange bindOutcome).2.2) ∧
    (get_user_id_by_threepid store m (normalizeEmailCase m a) = none →
      body.bind.getD false = true →
      (threepidOnPost store body (some u) exchange bindOutcome).2.2 =
        [.bearerAuth, .exchangeCreds creds, .addThreepidCall u m a v,
         .bindThreepid creds u] ∧
      (threepidOnPost store body (some u) exchange bindOutcome).2.1 =
        ((m, normalizeEmailCase m a), u) :: store ∧
      ∀ e, bindOutcome = .error e →
        (threepidOnPost store body (some u) exchange bindOutcome).1 = .err e) := by
  have hstep : threepidOnPost store body (some u) exchange bindOutcome =
      (match add_threepid store u m a v with
       | .error e =>
         (.err e, store, [.bearerAuth, .exchangeCreds creds, .addThreepidCall u m a v])
       | .ok store' =>
         if body.bind.getD false then
           match bindOutcome with
           | .error e =>
             (.err e, store', [.bearerAuth, .exchangeCreds creds,
                               .addThreepidCall u m a v, .bindThreepid creds u])
           | .ok _ =>
             (.resp 200 .empty, store', [.bearerAuth, .exchangeCreds creds,
                                         .addThreepidCall u m a v, .bindThreepid creds u])
         else
           (.resp 200 .empty, store',
            [.bearerAuth, .exchangeCreds creds, .addThreepidCall u m a v])) := by
    unfold threepidOnPost
    rw [hc]
    dsimp only
    rw [hex]
    dsimp only
    rw [hm, ha, hv]
    rfl
  refine ⟨?_, ?_, ?_⟩
  · intro w hfind
    have hadd : add_threepid store u m a v =
        .error { status := 400, msg := "Threepid already in use", code := .threepid_in_use } := by
      unfold add_threepid
      dsimp only
      rw [hfind]
    rw [hstep, hadd]
    refine ⟨rfl, ?_⟩
    intro c' w'
    simp
  · intro hb
    rw [hstep]
    cases hadd : add_threepid store u m a v with
    | error e =>
      intro c' w'
      simp
    | ok store' =>
      rw [hb]
      intro c' w'
      simp
  · intro hfind hb
    have hadd : add_threepid store u m a v =
        .ok (((m, normalizeEmailCase m a), u) :: store) := by
      unfold add_threepid
      dsimp only
      rw [hfind]
    rw [hstep, hadd]
    dsimp only
    rw [hb]
    cases bindOutcome with
    | error e =>
      refine ⟨rfl, rfl, ?_⟩
      intro e' he
      cases he
      rfl
    | ok x =>
      refine ⟨rfl, rfl, ?_⟩
      intro e' he
      cases he

/-- Witness for C8, third part, at concrete inputs: bind requested, insert
succeeds, the publication fails, yet the trace orders insert before bind
and the association remains stored while the publish error surfaces. -/
theorem accountC8_bind_after_insert_witness :
    (threepidOnPost [] { three_pid_creds := some "creds1", bind := some true }
        (some "@alice:hs")
        (fun c => if c == "creds1" then
            some { medium := some "email", address := some "Foo@Example.com",
                   validated_at := some 5 }
          else none)
        (.error { status := 502, msg := "publish failed", code := .unknown })).2.2 =
      [.bearerAuth, .exchangeCreds "creds1",
       .addThreepidCall "@alice:hs" "email" "Foo@Example.com" 5,
       .bindThreepid "creds1" "@alice:hs"] ∧
    (threepidOnPost [] { three_pid_creds := some "creds1", bind := some true }
        (some "@alice:hs")
        (fun c => if c == "creds1" then
            some { medium := some "email", address := some "Foo@Example.com",
                   validated_at := some 5 }
          else none)
        (.error { status := 502, msg := "publish failed", code := .unknown })).2.1 =
      [(("email", "foo@example.com"), "@alice:hs")] ∧
    (threepidOnPost [] { three_pid_creds := some "creds1", bind := some true }
        (some "@alice:hs")
        (fun c => if c == "creds1" then
            some { medium := some "email", address := some "Foo@Example.com",
                   validated_at := some 5 }
          else none)
        (.error { status := 502, msg := "publish failed", code := .unknown })).1 =
      .err { status := 502, msg := "publish failed", code := .unknown } := by
  have h := (accountC8_bind_after_insert [] { three_pid_creds := some "creds1", bind := some true }
    "@alice:hs" "creds1"
    (fun c => if c == "creds1" then
        some { medium := some "email", address := some "Foo@Example.com",
               validated_at := some 5 }
      else none)
    (.error { status := 502, msg := "publish failed", code := .unknown })
    { medium := some "email", address := some "Foo@Example.com", validated_at := some 5 }
    "email" "Foo@Example.com" 5 rfl rfl rfl rfl rfl).2.2 rfl rfl
  exact ⟨h.1, h.2.1, h.2.2 _ rfl⟩

/-- C9: the verification credentials of addThreepid are accepted under
either body key — whatever `threePidCreds` holds, a present
`three_pid_creds` is the value the exchange is invoked on (so it wins when
both keys are present), and a body carrying only the legacy
`threePidCreds` key is accepted too, its value reaching the exchange —
while a body carrying neither key fails with 400 `M_MISSING_PARAM` with an
empty outbound trace, before any bearer authentication or verifier
exchange. -/
theorem accountC9_creds_key_precedence (store : Store) (legacy : Option String)
    (c : String) (b : Option Bool) (u : String)
    (exchange : String → Option ThreepidDict) (bindOutcome : Except SynErr Unit) :
    ((threepidOnPost store { threePidCreds := legacy, three_pid_creds := some c, bind := b }
        (some u) exchange bindOutcome).2.2).take 2 = [.bearerAuth, .exchangeCreds c] ∧
    ((threepidOnPost store { threePidCreds := some c, three_pid_creds := none, bind := b }
        (some u) exchange bindOutcome).2.2).take 2 = [.bearerAuth, .exchangeCreds c] ∧
    ∀ bearer, threepidOnPost store { threePidCreds := none, three_pid_creds := none, bind := b }
        bearer exchange bindOutcome =
      (.err { status := 400, msg := "Missing param", code := .missing_param }, store, []) := by
  refine ⟨?_, ?_, ?_⟩
  · unfold threepidOnPost credsFromBody
    dsimp only
    split
    · rfl
    · split
      · rfl
      · split
        · rfl
        · split
          · split
            · rfl
            · rfl
          · rfl
  · unfold threepidOnPost credsFromBody
    dsimp only
    split
    · rfl
    · split
      · rfl
      · split
        · rfl
        · split
          · split
            · rfl
            · rfl
          · rfl
  · intro bearer
    rfl

end SynapseAccount
